import Mathlib

/-!
Shallow embedding of the handle-ownership and guard subsystem of the
winsafe repository (files `src/handles/traits.rs`, `src/handles/hfilemap.rs`,
`src/ole/funcs.rs`).

Native Windows primitives are external to the repository: each embedded
function takes the observable outcome of the native call (its BOOL return,
the thread-local last-error value sampled right after it, the returned
pointer, or the returned HRESULT) as an explicit argument, and the embedded
body transcribes what the Rust source does with that outcome.

Machine integers: `u32`/`u64` values are `Nat` (with explicit `% 2^32`
where truncation matters), a native `BOOL` (`i32`) is `Int`, pointers are
`Nat` with `0` as the null pointer.
-/

/-- A Win32 error code (`co::ERROR`), a `u32`. -/
abbrev ERROR := Nat

/-- `co::ERROR::SUCCESS`, the distinguished success error code, numerically `0`. -/
def ERROR_SUCCESS : ERROR := 0

/-- `WinResult<T> = Result<T, co::ERROR>` from `src/aliases.rs`. -/
abbrev WinResult (α : Type) := Except ERROR α

/-- An HRESULT status code (`co::HRESULT`), modelled as its `u32` bit pattern. -/
abbrev HRESULT := Nat

/-- `HRESULT::S_OK`, the distinguished success status. -/
def S_OK : HRESULT := 0

/-- `HRESULT::S_FALSE`, the informational already-done status. -/
def S_FALSE : HRESULT := 1

/-- `HRESULT::RPC_E_CHANGED_MODE`, already initialized with a different
concurrency model (`0x8001_0106`). -/
def RPC_E_CHANGED_MODE : HRESULT := 0x80010106

/-- `HRESULT::E_OUTOFMEMORY` (`0x8007_000E`). -/
def E_OUTOFMEMORY : HRESULT := 0x8007000E

/-- `HrResult<T> = Result<T, co::HRESULT>` from `src/ole/decl`. -/
abbrev HrResult (α : Type) := Except HRESULT α

/-- Modelled from the spec: the repository's private helper
`bool_to_winresult` (in `src/privs.rs`, not part of the visible slice).
Per the spec, boolean-returning primitives map `true` (non-zero `BOOL`) to
`Ok(())` and `false` (zero) to `Err(lookup-last-error())`. `ret` is the
native `BOOL` return; `lastError` is the thread-local last-error value
observable immediately after the call. -/
def bool_to_winresult (ret : Int) (lastError : ERROR) : WinResult Unit :=
  if ret = 0 then Except.error lastError else Except.ok ()

/-- Modelled from the spec: the repository's private helper
`ok_to_hrresult` (in `src/ole/privs.rs`, not part of the visible slice).
Per the spec, a distinguished success status maps to `Ok` and any other
status maps to `Err(status)`. -/
def ok_to_hrresult (hr : HRESULT) : HrResult Unit :=
  if hr = S_OK then Except.ok () else Except.error hr

/-- `HandleGdi::DeleteObject` from `src/handles/traits.rs`: the native
`gdi32::DeleteObject` returns `ret`; on a zero return the code inspects
`GetLastError()` (`lastError`): `co::ERROR::SUCCESS` is treated as success
("not really an error"), anything else is the real failure; a non-zero
return is success outright. -/
def DeleteObject (ret : Int) (lastError : ERROR) : WinResult Unit :=
  match ret with
  | 0 =>
    if lastError = ERROR_SUCCESS then Except.ok () else Except.error lastError
  | _ => Except.ok ()

/-- `HandleClose::CloseHandle` from `src/handles/traits.rs`:
`bool_to_winresult(kernel32::CloseHandle(self.as_ptr()))`. -/
def CloseHandle (ret : Int) (lastError : ERROR) : WinResult Unit :=
  bool_to_winresult ret lastError

/-- The guard returned by `CoInitializeEx`
(`src/ole/guard.rs::CoUninitializeGuard`), constructed as
`CoUninitializeGuard::new(hr)` and carrying the informational success code. -/
structure CoUninitializeGuard where
  hr : HRESULT
deriving DecidableEq, Repr

/-- `CoInitializeEx` from `src/ole/funcs.rs`: the native
`ole::ffi::CoInitializeEx` returns `hr`; the source matches `S_OK`,
`S_FALSE` and `RPC_E_CHANGED_MODE` to `Ok(CoUninitializeGuard::new(hr))`
and any other code to `Err(hr)`. -/
def CoInitializeEx (hr : HRESULT) : HrResult CoUninitializeGuard :=
  if hr = S_OK ∨ hr = S_FALSE ∨ hr = RPC_E_CHANGED_MODE then
    Except.ok (CoUninitializeGuard.mk hr)
  else
    Except.error hr

/-- The guard returned by `CoLockObjectExternal`
(`src/ole/guard.rs::CoLockObjectExternalGuard`): it retains a reference to
the locked object so the unlock targets the right object. -/
structure CoLockObjectExternalGuard (T : Type) where
  obj : T
deriving DecidableEq, Repr

/-- `CoLockObjectExternal` from `src/ole/funcs.rs`:
`ok_to_hrresult(ole::ffi::CoLockObjectExternal(obj.ptr(), 1, 0)).map(|_|
CoLockObjectExternalGuard::new(obj))`. `hr` is the status the native lock
primitive returns. -/
def CoLockObjectExternal {T : Type} (obj : T) (hr : HRESULT) :
    HrResult (CoLockObjectExternalGuard T) :=
  (ok_to_hrresult hr).map (fun _ => CoLockObjectExternalGuard.mk obj)

/-- `CoTaskMemAlloc` from `src/ole/funcs.rs`: the native allocator is
called with `cb` and returns pointer `p`; a null pointer becomes
`Err(E_OUTOFMEMORY)` (synthesized locally), a non-null pointer is returned
in `Ok`. `cb` does not affect the wrapping, only the native call. -/
def CoTaskMemAlloc (cb : Nat) (p : Nat) : HrResult Nat :=
  let _ := cb
  if p = 0 then Except.error E_OUTOFMEMORY else Except.ok p

/-- `CoTaskMemRealloc` from `src/ole/funcs.rs`: the native reallocator is
called with `pv` and `cb` and returns pointer `p`; same null-check shape as
`CoTaskMemAlloc`. -/
def CoTaskMemRealloc (pv : Nat) (cb : Nat) (p : Nat) : HrResult Nat :=
  let _ := pv
  let _ := cb
  if p = 0 then Except.error E_OUTOFMEMORY else Except.ok p

/-- Modelled from the spec: the repository's helper `HIDWORD` (in
`src/funcs.rs`, not part of the visible slice) extracts the high 32-bit
half of a 64-bit value. -/
def HIDWORD (v : Nat) : Nat := (v / 2 ^ 32) % 2 ^ 32

/-- Modelled from the spec: the repository's helper `LODWORD` (in
`src/funcs.rs`, not part of the visible slice) extracts the low 32-bit
half of a 64-bit value. -/
def LODWORD (v : Nat) : Nat := v % 2 ^ 32

/-- `HFILEMAPVIEW` from `src/handles/hfilemap.rs`: the address of a mapped
view, originally just an `LPVOID`. -/
structure HFILEMAPVIEW where
  addr : Nat
deriving DecidableEq, Repr

/-- The shape of the native `kernel32::MapViewOfFile` primitive as the
source calls it: handle, desired access, high offset dword, low offset
dword, number of bytes to map (an `i64`); it returns an address. -/
abbrev MapPrimitive := Nat → Nat → Nat → Nat → Int → Nat

/-- `HFILEMAP::MapViewOfFile` from `src/handles/hfilemap.rs`: calls the
native map primitive with `(self.0, desired_access, HIDWORD(offset),
LODWORD(offset), number_of_bytes_to_map.unwrap_or_default())`; a null
returned address becomes `Err(GetLastError())`, a non-null address is
wrapped as `Ok(HFILEMAPVIEW(ptr))`. `native` is the primitive and
`lastError` the last-error value observable after a failing call. -/
def MapViewOfFile (self : Nat) (desired_access : Nat) (offset : Nat)
    (number_of_bytes_to_map : Option Int) (native : MapPrimitive)
    (lastError : ERROR) : WinResult HFILEMAPVIEW :=
  let p := native self desired_access (HIDWORD offset) (LODWORD offset)
    (number_of_bytes_to_map.getD 0)
  if p = 0 then Except.error lastError else Except.ok (HFILEMAPVIEW.mk p)

/-- `HFILEMAPVIEW::UnmapViewOfFile` from `src/handles/hfilemap.rs`:
`bool_to_winresult(kernel32::UnmapViewOfFile(self.0))`. -/
def UnmapViewOfFile (ret : Int) (lastError : ERROR) : WinResult Unit :=
  bool_to_winresult ret lastError

/-- A Rust byte slice as produced by `std::slice::from_raw_parts`: a base
address and a length. -/
structure Slice where
  base : Nat
  len : Nat
deriving DecidableEq, Repr

/-- `HFILEMAPVIEW::as_slice` from `src/handles/hfilemap.rs`:
`std::slice::from_raw_parts(self.0 as _, len)` — the requested length is
passed through unchecked. -/
def HFILEMAPVIEW.as_slice (v : HFILEMAPVIEW) (len : Nat) : Slice :=
  Slice.mk v.addr len

/-- `HFILEMAPVIEW::as_mut_slice` from `src/handles/hfilemap.rs`:
`std::slice::from_raw_parts_mut(self.0 as _, len)` — same unchecked shape
as `as_slice`. -/
def HFILEMAPVIEW.as_mut_slice (v : HFILEMAPVIEW) (len : Nat) : Slice :=
  Slice.mk v.addr len

/-- A handle value as in the `Handle` trait of `src/handles/traits.rs`: a
wrapped raw pointer (`*mut std::ffi::c_void`), here a `Nat` with `0` as
null. The phantom resource-kind tag has no runtime content, so one carrier
type represents every handle kind. -/
structure HandleVal where
  ptrVal : Nat
deriving DecidableEq, Repr

/-- `Handle::from_ptr`: wraps a pointer with no validation. -/
def HandleVal.from_ptr (p : Nat) : HandleVal := HandleVal.mk p

/-- `Handle::as_ptr`: returns the underlying raw pointer. -/
def HandleVal.as_ptr (h : HandleVal) : Nat := h.ptrVal

/-- `Handle::is_null` from `src/handles/traits.rs`:
`self.as_ptr().is_null()`. -/
def HandleVal.is_null (h : HandleVal) : Bool := h.as_ptr = 0

/-- `Handle::as_opt` from `src/handles/traits.rs`: `None` if the handle is
null, otherwise `Some(self)`. -/
def HandleVal.as_opt (h : HandleVal) : Option HandleVal :=
  if h.is_null then none else some h

/-- Compile-time facts the source declares about a handle type: which
derives it carries and whether it implements the `HandleClose` capability.
`Handle` in `src/handles/traits.rs` requires `Copy + Clone`, and
`src/handles/hfilemap.rs` has `#[derive(Copy, Clone, PartialEq, Eq)]` on
`HFILEMAP` together with `impl HandleClose for HFILEMAP {}`. -/
structure HandleTypeInfo where
  derivesCopy : Bool
  derivesClone : Bool
  implementsHandleClose : Bool
deriving DecidableEq, Repr

/-- The declared facts for `HFILEMAP` (`src/handles/hfilemap.rs`, lines
13-18): derives `Copy` and `Clone`, implements `HandleClose`. -/
def HFILEMAP_info : HandleTypeInfo :=
  HandleTypeInfo.mk true true true

/-- Modelled from the spec: a by-value `close(self)` prevents any further
use of the same value at compile time exactly when the type is NOT `Copy`
(for a `Copy` type, Rust copies the value into the call and the original
binding stays usable, so a second use still compiles). -/
def closeSingleUseCompileTimeEnforced (t : HandleTypeInfo) : Prop :=
  t.implementsHandleClose = true → t.derivesCopy = false

instance (t : HandleTypeInfo) : Decidable (closeSingleUseCompileTimeEnforced t) := by
  unfold closeSingleUseCompileTimeEnforced
  infer_instance

/-- An `IUnknown` COM reference value: a wrapped virtual-table
pointer-to-pointer, here a `Nat` with `0` as null. -/
structure IUnknownVal where
  ptrVal : Nat
deriving DecidableEq, Repr

/-- `IUnknown::null()`: the null sentinel used as an output slot before a
native call fills it. -/
def IUnknownNull : IUnknownVal := IUnknownVal.mk 0

/-- The observable outcome of one native `CoCreateInstance` /
`CoCreateInstanceEx` call: the returned status `hr`, the value the
primitive stored through the outer-`IUnknown` output slot (meaningful only
when that slot pointer was non-null), and the value stored through the
queried-object output slot. The oracle receives the arguments the wrapper
passes: the class id, whether the outer slot pointer handed over is
non-null (`false` means `std::ptr::null_mut()` was passed), and the class
context. -/
structure CreateOutcome where
  hr : HRESULT
  outerWritten : IUnknownVal
  queried : IUnknownVal
deriving DecidableEq, Repr

/-- The native creation primitive as an oracle over the arguments the
wrapper computes. -/
abbrev CreatePrimitive := Nat → Bool → Nat → CreateOutcome

/-- `CoCreateInstance` from `src/ole/funcs.rs`. `iunk_outer` is the
caller's optional outer-`IUnknown` slot (its current content when `some`).
The source initializes a local `queried_outer` to null, passes the native
call a null outer pointer when the caller passed `None` and the address of
`queried_outer` otherwise, and only inside `.map` on the success path
stores `queried_outer` into the caller's slot and returns the queried
object. The result is the returned `HrResult` paired with the caller
slot's final content. -/
def CoCreateInstance (clsid : Nat) (iunk_outer : Option IUnknownVal)
    (cls_context : Nat) (native : CreatePrimitive) :
    HrResult IUnknownVal × Option IUnknownVal :=
  let outerProvided := iunk_outer.isSome
  let out := native clsid outerProvided cls_context
  let queried_outer := if outerProvided then out.outerWritten else IUnknownNull
  match ok_to_hrresult out.hr with
  | Except.ok _ =>
    (Except.ok out.queried,
      match iunk_outer with
      | some _ => some queried_outer
      | none => none)
  | Except.error e => (Except.error e, iunk_outer)

/-- The native `CoCreateInstanceEx` primitive as an oracle: class id,
outer-slot-pointer-non-null flag, class context, whether a server-info
pointer was passed, and the result-array length. -/
abbrev CreateExPrimitive := Nat → Bool → Nat → Bool → Nat → CreateOutcome

/-- `CoCreateInstanceEx` from `src/ole/funcs.rs`: same outer-slot
discipline as `CoCreateInstance`, with the server info passed as a pointer
(null when `None`) and the `MULTI_QI` results array passed by length and
pointer; the wrapper returns `Ok(())` and writes the caller's outer slot
only on the success path. -/
def CoCreateInstanceEx (clsid : Nat) (iunk_outer : Option IUnknownVal)
    (cls_context : Nat) (server_info : Option Nat) (results_len : Nat)
    (native : CreateExPrimitive) : HrResult Unit × Option IUnknownVal :=
  let outerProvided := iunk_outer.isSome
  let out := native clsid outerProvided cls_context server_info.isSome results_len
  let queried_outer := if outerProvided then out.outerWritten else IUnknownNull
  match ok_to_hrresult out.hr with
  | Except.ok _ =>
    (Except.ok (),
      match iunk_outer with
      | some _ => some queried_outer
      | none => none)
  | Except.error e => (Except.error e, iunk_outer)

/-- Claim C1: for every GDI-deletable handle, `DeleteObject` returns
`Ok(())` when the native primitive returns non-zero; on a zero return it
samples the last-error code, returning `Ok(())` if that code is
`ERROR::SUCCESS` and `Err(code)` for any other code. -/
theorem deleteObject_result_mapping (ret : Int) (lastError : ERROR) :
    (ret ≠ 0 → DeleteObject ret lastError = Except.ok ()) ∧
    (ret = 0 → lastError = ERROR_SUCCESS →
      DeleteObject ret lastError = Except.ok ()) ∧
    (ret = 0 → lastError ≠ ERROR_SUCCESS →
      DeleteObject ret lastError = Except.error lastError) := by
  unfold DeleteObject
  refine ⟨fun h => ?_, fun h0 hs => ?_, fun h0 hs => ?_⟩
  · split
    · simp_all
    · rfl
  · subst h0; simp [hs]
  · subst h0; simp [hs]

/-- Witness for C1: a zero native return with last-error 7 yields `Err 7`. -/
theorem deleteObject_result_mapping_witness :
    DeleteObject 0 7 = Except.error 7 :=
  (deleteObject_result_mapping 0 7).2.2 rfl (by decide)

/-- Claim C2: `CoInitializeEx` returns `Ok` with a newly constructed
`CoUninitializeGuard` (carrying the returned code) exactly when the native
init primitive returns `S_OK`, `S_FALSE` or `RPC_E_CHANGED_MODE`; any
other code is returned in `Err` and no guard is constructed. -/
theorem coInitializeEx_guard_mapping (hr : HRESULT) :
    (CoInitializeEx hr = Except.ok (CoUninitializeGuard.mk hr) ↔
      hr = S_OK ∨ hr = S_FALSE ∨ hr = RPC_E_CHANGED_MODE) ∧
    (¬(hr = S_OK ∨ hr = S_FALSE ∨ hr = RPC_E_CHANGED_MODE) →
      CoInitializeEx hr = Except.error hr) := by
  unfold CoInitializeEx
  constructor
  · constructor
    · intro h
      by_contra hc
      simp [hc] at h
    · intro h
      simp [h]
  · intro h
    simp [h]

/-- Witness for C2: status 5 is none of the three success codes, so
`CoInitializeEx 5` is `Err 5`. -/
theorem coInitializeEx_guard_mapping_witness :
    CoInitializeEx 5 = Except.error 5 :=
  (coInitializeEx_guard_mapping 5).2 (by decide)

/-- Claim C3 counterexample: single-use of a closable handle after
`close()` is NOT compile-time enforced: `HFILEMAP` implements
`HandleClose` yet derives `Copy`, so passing the value to `CloseHandle` by
value copies it and the original binding remains usable. -/
theorem closeSingleUse_not_enforced_cex :
    ¬ closeSingleUseCompileTimeEnforced HFILEMAP_info := by
  decide

/-- Claim C3 (amended): `close()` takes the handle by value and maps the
native boolean result, but closable handle types such as `HFILEMAP`
derive `Copy`, so the same value can be used again after `close()`;
single-use is a caller contract, not compile-time enforced. -/
theorem close_consumes_amended (ret : Int) (le : ERROR) :
    HFILEMAP_info.implementsHandleClose = true ∧
    HFILEMAP_info.derivesCopy = true ∧
    (ret ≠ 0 → CloseHandle ret le = Except.ok ()) ∧
    (ret = 0 → CloseHandle ret le = Except.error le) := by
  refine ⟨rfl, rfl, fun h => ?_, fun h => ?_⟩ <;>
    simp [CloseHandle, bool_to_winresult, h]

/-- Witness for C3 (amended): a successful native close maps to `Ok`. -/
theorem close_consumes_amended_witness :
    CloseHandle 1 0 = Except.ok () :=
  (close_consumes_amended 1 0).2.2.1 (by decide)

/-- Claim C4: a guard is constructed only on the success path of its
acquire operation: `CoLockObjectExternal` yields the guard (retaining the
object) exactly on `S_OK` and `Err hr` otherwise, and `CoInitializeEx`
yields no guard on any non-success code. -/
theorem guard_only_on_success {T : Type} (obj : T) (hr hr2 : HRESULT) :
    (CoLockObjectExternal obj hr =
      Except.ok (CoLockObjectExternalGuard.mk obj) ↔ hr = S_OK) ∧
    (hr ≠ S_OK → CoLockObjectExternal obj hr = Except.error hr) ∧
    (¬(hr2 = S_OK ∨ hr2 = S_FALSE ∨ hr2 = RPC_E_CHANGED_MODE) →
      ∀ g : CoUninitializeGuard, CoInitializeEx hr2 ≠ Except.ok g) := by
  unfold CoLockObjectExternal ok_to_hrresult CoInitializeEx
  refine ⟨⟨fun h => ?_, fun h => ?_⟩, fun h => ?_, fun h g => ?_⟩
  · by_contra hc
    simp [hc, Except.map] at h
  · simp [h, Except.map]
  · simp [h, Except.map]
  · simp [h]

/-- Witness for C4: a failing lock status 7 yields `Err 7` and no guard;
a failing init status 7 yields no guard. -/
theorem guard_only_on_success_witness :
    CoLockObjectExternal (3 : Nat) 7 = Except.error 7 ∧
    CoInitializeEx 7 ≠ Except.ok (CoUninitializeGuard.mk 7) :=
  ⟨(guard_only_on_success (3 : Nat) 7 7).2.1 (by decide),
    (guard_only_on_success (3 : Nat) 7 7).2.2 (by decide)
      (CoUninitializeGuard.mk 7)⟩

/-- Claim C5: every boolean-returning native primitive behind a handle
operation (`CloseHandle`, `UnmapViewOfFile`) maps a true (non-zero)
return to `Ok(())` and a false (zero) return to `Err` of the last-error
code sampled after the failing call. -/
theorem boolPrimitive_result_mapping (ret : Int) (le : ERROR) :
    (ret ≠ 0 →
      CloseHandle ret le = Except.ok () ∧
      UnmapViewOfFile ret le = Except.ok ()) ∧
    (ret = 0 →
      CloseHandle ret le = Except.error le ∧
      UnmapViewOfFile ret le = Except.error le) := by
  constructor <;> intro h <;>
    simp [CloseHandle, UnmapViewOfFile, bool_to_winresult, h]

/-- Witness for C5: a zero return with last-error 9 yields `Err 9` from
both operations. -/
theorem boolPrimitive_result_mapping_witness :
    CloseHandle 0 9 = Except.error 9 ∧
    UnmapViewOfFile 0 9 = Except.error 9 :=
  (boolPrimitive_result_mapping 0 9).2 rfl

/-- Claim C6: `CoTaskMemAlloc` and `CoTaskMemRealloc` return
`Err E_OUTOFMEMORY` exactly when the native allocator returns a null
pointer and `Ok` with that non-null pointer otherwise; `E_OUTOFMEMORY` is
the only error either can ever return, so the error is synthesized
locally, not read from the last-error mechanism. -/
theorem coTaskMem_oom_mapping (cb pv p : Nat) :
    (CoTaskMemAlloc cb p = Except.error E_OUTOFMEMORY ↔ p = 0) ∧
    (p ≠ 0 → CoTaskMemAlloc cb p = Except.ok p) ∧
    (∀ e, CoTaskMemAlloc cb p = Except.error e → e = E_OUTOFMEMORY) ∧
    (CoTaskMemRealloc pv cb p = Except.error E_OUTOFMEMORY ↔ p = 0) ∧
    (p ≠ 0 → CoTaskMemRealloc pv cb p = Except.ok p) ∧
    (∀ e, CoTaskMemRealloc pv cb p = Except.error e → e = E_OUTOFMEMORY) := by
  unfold CoTaskMemAlloc CoTaskMemRealloc
  by_cases h : p = 0 <;> simp [h]

/-- Witness for C6: a null pointer from the allocator yields
`Err E_OUTOFMEMORY`, a non-null pointer is passed through in `Ok`. -/
theorem coTaskMem_oom_mapping_witness :
    CoTaskMemAlloc 4 0 = Except.error E_OUTOFMEMORY ∧
    CoTaskMemRealloc 8 4 12 = Except.ok 12 :=
  ⟨(coTaskMem_oom_mapping 4 8 0).1.mpr rfl,
    (coTaskMem_oom_mapping 4 8 12).2.2.2.2.1 (by decide)⟩

/-- Claim C7: `MapViewOfFile` splits the 64-bit offset into the high and
low 32-bit halves (`HIDWORD offset * 2^32 + LODWORD offset = offset` for
any `u64` offset) and hands them to the native map primitive; a null
returned address becomes `Err` of the last-error code, any other address
`Ok` of the mapped-view handle wrapping it. -/
theorem mapViewOfFile_split_and_mapping (self access offset : Nat)
    (n : Option Int) (native : MapPrimitive) (le : ERROR)
    (hoff : offset < 2 ^ 64) :
    HIDWORD offset * 2 ^ 32 + LODWORD offset = offset ∧
    (native self access (HIDWORD offset) (LODWORD offset) (n.getD 0) = 0 →
      MapViewOfFile self access offset n native le = Except.error le) ∧
    (native self access (HIDWORD offset) (LODWORD offset) (n.getD 0) ≠ 0 →
      MapViewOfFile self access offset n native le =
        Except.ok (HFILEMAPVIEW.mk
          (native self access (HIDWORD offset) (LODWORD offset)
            (n.getD 0)))) := by
  have h32 : (2 : Nat) ^ 32 = 4294967296 := by norm_num
  have h64 : (2 : Nat) ^ 64 = 4294967296 * 4294967296 := by norm_num
  refine ⟨?_, fun h => ?_, fun h => ?_⟩
  · unfold HIDWORD LODWORD
    rw [h32]
    rw [h64] at hoff
    omega
  · simp [MapViewOfFile, h]
  · simp [MapViewOfFile, h]

/-- Witness for C7: offset `2^32 + 5` splits into high half 1 and low
half 5, and a primitive returning the null address makes the wrapper
return `Err` of the last-error code 3. -/
theorem mapViewOfFile_split_and_mapping_witness :
    HIDWORD (2 ^ 32 + 5) * 2 ^ 32 + LODWORD (2 ^ 32 + 5) = 2 ^ 32 + 5 ∧
    MapViewOfFile 1 2 (2 ^ 32 + 5) none (fun _ _ _ _ _ => 0) 3 =
      Except.error 3 :=
  ⟨(mapViewOfFile_split_and_mapping 1 2 (2 ^ 32 + 5) none
      (fun _ _ _ _ _ => 0) 3 (by norm_num)).1,
    (mapViewOfFile_split_and_mapping 1 2 (2 ^ 32 + 5) none
      (fun _ _ _ _ _ => 0) 3 (by norm_num)).2.1 rfl⟩

/-- Claim C8: for every mapped-view handle and every requested length `L`,
`as_slice` and `as_mut_slice` are total (they always succeed) and return a
byte view of exactly `L` bytes based at the view's address; neither takes
the true mapping size as input, so no bounds validation of `L` against it
is performed. -/
theorem as_slice_unchecked (v : HFILEMAPVIEW) (L : Nat) :
    (v.as_slice L).base = v.addr ∧ (v.as_slice L).len = L ∧
    (v.as_mut_slice L).base = v.addr ∧ (v.as_mut_slice L).len = L :=
  ⟨rfl, rfl, rfl, rfl⟩

/-- Claim C9: `is_null` is true exactly when the wrapped raw token is
null, `as_opt` is `none` exactly when the handle is null and `some` of
the same handle otherwise, and `from_ptr`/`as_ptr` wrap and unwrap with
no validation; all four are total functions, so none can fail. -/
theorem handle_null_ops (h : HandleVal) (p : Nat) :
    (h.is_null = true ↔ h.as_ptr = 0) ∧
    (h.as_opt = none ↔ h.is_null = true) ∧
    (h.is_null = false → h.as_opt = some h) ∧
    (HandleVal.from_ptr p).as_ptr = p := by
  refine ⟨?_, ?_, fun hn => ?_, rfl⟩
  · simp [HandleVal.is_null, HandleVal.as_ptr]
  · by_cases hz : h.ptrVal = 0 <;>
      simp [HandleVal.as_opt, HandleVal.is_null, HandleVal.as_ptr, hz]
  · by_cases hz : h.ptrVal = 0 <;>
      simp_all [HandleVal.as_opt, HandleVal.is_null, HandleVal.as_ptr]

/-- Witness for C9: the handle wrapping pointer 5 is not null and
`as_opt` keeps it. -/
theorem handle_null_ops_witness :
    (HandleVal.from_ptr 5).as_opt = some (HandleVal.from_ptr 5) :=
  (handle_null_ops (HandleVal.from_ptr 5) 0).2.2.1 (by decide)

/-- Claim C10: in `CoCreateInstance` and `CoCreateInstanceEx`, when the
caller passes `none` the native primitive is handed a null outer pointer
(the result depends only on the primitive's behavior at a null outer
argument); when the call fails the caller's slot is left unchanged; and
the slot can change only when the caller passed `some` and the call
succeeded. -/
theorem coCreateInstance_outer_slot (clsid ctx rlen : Nat)
    (slot : Option IUnknownVal) (f g : CreatePrimitive) (sIn : Option Nat)
    (fe ge : CreateExPrimitive) :
    ((∀ c x, f c false x = g c false x) →
      CoCreateInstance clsid none ctx f = CoCreateInstance clsid none ctx g) ∧
    (∀ e, (CoCreateInstance clsid slot ctx f).1 = Except.error e →
      (CoCreateInstance clsid slot ctx f).2 = slot) ∧
    ((CoCreateInstance clsid slot ctx f).2 ≠ slot →
      slot.isSome = true ∧
      ∃ v, (CoCreateInstance clsid slot ctx f).1 = Except.ok v) ∧
    ((∀ c x s r, fe c false x s r = ge c false x s r) →
      CoCreateInstanceEx clsid none ctx sIn rlen fe =
        CoCreateInstanceEx clsid none ctx sIn rlen ge) ∧
    (∀ e, (CoCreateInstanceEx clsid slot ctx sIn rlen fe).1 = Except.error e →
      (CoCreateInstanceEx clsid slot ctx sIn rlen fe).2 = slot) ∧
    ((CoCreateInstanceEx clsid slot ctx sIn rlen fe).2 ≠ slot →
      slot.isSome = true ∧
      (CoCreateInstanceEx clsid slot ctx sIn rlen fe).1 = Except.ok ()) := by
  refine ⟨fun h => ?_, fun e he => ?_, fun hne => ?_, fun h => ?_,
    fun e he => ?_, fun hne => ?_⟩
  · simp only [CoCreateInstance, Option.isSome_none]
    rw [h clsid ctx]
  · by_cases hhr : (f clsid slot.isSome ctx).hr = S_OK <;>
      simp [CoCreateInstance, ok_to_hrresult, hhr] at he ⊢
  · rcases slot with _ | v
    · exfalso
      apply hne
      by_cases hhr : (f clsid false ctx).hr = S_OK <;>
        simp [CoCreateInstance, ok_to_hrresult, hhr, Option.isSome_none]
    · by_cases hhr : (f clsid true ctx).hr = S_OK
      · exact ⟨rfl, (f clsid true ctx).queried,
          by simp [CoCreateInstance, ok_to_hrresult, hhr,
            Option.isSome_some]⟩
      · exfalso
        apply hne
        simp [CoCreateInstance, ok_to_hrresult, hhr, Option.isSome_some]
  · simp only [CoCreateInstanceEx, Option.isSome_none]
    rw [h clsid ctx sIn.isSome rlen]
  · by_cases hhr : (fe clsid slot.isSome ctx sIn.isSome rlen).hr = S_OK <;>
      simp [CoCreateInstanceEx, ok_to_hrresult, hhr] at he ⊢
  · rcases slot with _ | v
    · exfalso
      apply hne
      by_cases hhr : (fe clsid false ctx sIn.isSome rlen).hr = S_OK <;>
        simp [CoCreateInstanceEx, ok_to_hrresult, hhr, Option.isSome_none]
    · by_cases hhr : (fe clsid true ctx sIn.isSome rlen).hr = S_OK
      · exact ⟨rfl,
          by simp [CoCreateInstanceEx, ok_to_hrresult, hhr,
            Option.isSome_some]⟩
      · exfalso
        apply hne
        simp [CoCreateInstanceEx, ok_to_hrresult, hhr, Option.isSome_some]

/-- Witness for C10: a primitive failing with status 7 leaves the
caller's outer slot holding its old value. -/
theorem coCreateInstance_outer_slot_witness :
    (CoCreateInstance 1 (some (IUnknownVal.mk 4)) 2
      (fun _ _ _ => CreateOutcome.mk 7 IUnknownNull IUnknownNull)).2 =
      some (IUnknownVal.mk 4) :=
  (coCreateInstance_outer_slot 1 2 0 (some (IUnknownVal.mk 4))
    (fun _ _ _ => CreateOutcome.mk 7 IUnknownNull IUnknownNull)
    (fun _ _ _ => CreateOutcome.mk 7 IUnknownNull IUnknownNull) none
    (fun _ _ _ _ _ => CreateOutcome.mk 7 IUnknownNull IUnknownNull)
    (fun _ _ _ _ _ => CreateOutcome.mk 7 IUnknownNull IUnknownNull)).2.1
    7 rfl
